import Mathlib

/-!
Shallow embedding of the SSD1306 OLED driver (src/ssd1306_oled.cpp) and
verification of its specification.

Pixel coordinates are modelled as `Int` (the source uses `int16_t`), byte
values as `Nat` kept below 256, buffers as `List Nat`, and pointers as
`Option (List Nat)` with `none` standing for a null pointer.  Bus traffic
(the SSD1306_command / SSD1306_data writes) is modelled as a trace of
`BusEvent`s.  C narrowing conversions to uint8_t / uint16_t are modelled
explicitly as reduction modulo 256 / 65536.
-/

namespace SSD1306Oled

/-- C narrowing conversion of a signed integer value to uint8_t
(reduction modulo 256, result non-negative). -/
def u8 (v : Int) : Nat := (v % 256).toNat

/-- C narrowing conversion of a signed integer value to uint16_t
(reduction modulo 65536, result non-negative). -/
def u16 (v : Int) : Nat := (v % 65536).toNat

/-! Controller command opcodes.

Modelled from the spec: the header file defining the SSD1306 command
catalog (display on/off, contrast, multiplex ratio, addressing, scroll,
and address-window opcodes) is not part of the repository sources; the
values below are the standard SSD1306 controller opcodes the spec's
command catalog (section 4.1) describes. The claims only depend on these
being fixed, pairwise-distinct opcodes. -/

def SSD1306_DISPLAY_OFF : Nat := 0xAE
def SSD1306_DISPLAY_ON : Nat := 0xAF
def SSD1306_SET_DISPLAY_CLOCK_DIV_RATIO : Nat := 0xD5
def SSD1306_SET_MULTIPLEX_RATIO : Nat := 0xA8
def SSD1306_SET_DISPLAY_OFFSET : Nat := 0xD3
def SSD1306_SET_START_LINE : Nat := 0x40
def SSD1306_CHARGE_PUMP : Nat := 0x8D
def SSD1306_MEMORY_ADDR_MODE : Nat := 0x20
def SSD1306_SET_SEGMENT_REMAP : Nat := 0xA0
def SSD1306_COM_SCAN_DIR_DEC : Nat := 0xC8
def SSD1306_SET_COM_PINS : Nat := 0xDA
def SSD1306_SET_CONTRAST_CONTROL : Nat := 0x81
def SSD1306_SET_PRECHARGE_PERIOD : Nat := 0xD9
def SSD1306_SET_VCOM_DESELECT : Nat := 0xDB
def SSD1306_DISPLAY_ALL_ON_RESUME : Nat := 0xA4
def SSD1306_NORMAL_DISPLAY : Nat := 0xA6
def SSD1306_DEACTIVATE_SCROLL : Nat := 0x2E
def SSD1306_SET_COLUMN_ADDR : Nat := 0x21
def SSD1306_SET_PAGE_ADDR : Nat := 0x22

/-- A single byte written on the I2C bus, in command framing or in data
framing (the code's SSD1306_command / SSD1306_data wrappers). -/
inductive BusEvent where
  | command (b : Nat)
  | data (b : Nat)
deriving DecidableEq, Repr

/-- Pixel color constants of the graphics layer: WHITE (set), BLACK
(clear), INVERSE (flip). -/
inductive Color where
  | WHITE
  | BLACK
  | INVERSE
deriving DecidableEq, Repr

/-- Return codes of OLEDBitmap (the OLED_Return_Codes_e enumeration). -/
inductive OLED_Return_Codes_e where
  | OLED_Success
  | OLED_BitmapScreenBounds
  | OLED_BitmapLargerThanScreen
  | OLED_BitmapNullptr
  | OLED_BitmapHorizontalSize
deriving DecidableEq, Repr

/-- Driver instance state: the fields of the SSD1306 class together with
the graphics base class fields it reads (WIDTH, HEIGHT, rotation).
WIDTH, HEIGHT and rotation are modelled from the spec: the graphics base
class source is not in the repository; per the spec WIDTH/HEIGHT are the
unrotated panel dimensions fixed at construction and rotation is mutable
runtime state in 0..3. -/
structure Driver where
  OLED_WIDTH : Nat
  OLED_HEIGHT : Nat
  OLED_PAGE_NUM : Nat
  bufferWidth : Nat
  bufferHeight : Nat
  WIDTH : Nat
  HEIGHT : Nat
  rotation : Nat
  address : Nat
  OLEDbuffer : Option (List Nat)
deriving DecidableEq, Repr

/-- The SSD1306 constructor: records the panel dimensions, page count
height/8, and the buffer dimensions; the graphics base receives the same
width/height.  No buffer is attached yet. -/
def construct (w h addr : Nat) : Driver :=
  { OLED_WIDTH := w
    OLED_HEIGHT := h
    OLED_PAGE_NUM := h / 8
    bufferWidth := w
    bufferHeight := h
    WIDTH := w
    HEIGHT := h
    rotation := 0
    address := addr
    OLEDbuffer := none }

/-- Modelled from the spec: the graphics base class rotation setter
(rotation is mutable runtime state). -/
def setRotation (st : Driver) (r : Nat) : Driver := { st with rotation := r }

/-- Modelled from the spec: the graphics base class logical width
(the code's field read in OLEDBitmap); it swaps with the height for
rotations 1 and 3. -/
def logicalWidth (st : Driver) : Nat :=
  if st.rotation = 1 ∨ st.rotation = 3 then st.HEIGHT else st.WIDTH

/-- Modelled from the spec: the graphics base class logical height;
it swaps with the width for rotations 1 and 3. -/
def logicalHeight (st : Driver) : Nat :=
  if st.rotation = 1 ∨ st.rotation = 3 then st.WIDTH else st.HEIGHT

/-- Result of OLEDSetBufferPtr: the boolean return value, the number of
the numbered error diagnostic printed on a failure path (1: bad size,
2: null pointer), and the driver state after the call. -/
structure SetBufferResult where
  retval : Bool
  errnum : Option Nat
  state : Driver
deriving DecidableEq, Repr

/-- OLEDSetBufferPtr: rejects a declared size different from
width * (height/8) (diagnostic 1); otherwise assigns the buffer pointer
field, then rejects a null pointer (diagnostic 2); otherwise succeeds. -/
def OLEDSetBufferPtr (st : Driver) (width height : Nat)
    (pBuffer : Option (List Nat)) (sizeOfBuffer : Nat) : SetBufferResult :=
  if sizeOfBuffer ≠ width * (height / 8) then
    { retval := false, errnum := some 1, state := st }
  else
    let st' := { st with OLEDbuffer := pBuffer }
    if pBuffer = none then
      { retval := false, errnum := some 2, state := st' }
    else
      { retval := true, errnum := none, state := st' }

/-- The byte update drawPixel performs at the addressed framebuffer byte:
OR-in the mask for WHITE, AND with the 8-bit complement of the mask for
BLACK, XOR the mask for INVERSE.  Bytes are uint8_t, so the complement of
the mask is taken within 8 bits. -/
def pixelByteUpdate (color : Color) (k : Nat) (b : Nat) : Nat :=
  match color with
  | .WHITE => b ||| (1 <<< k)
  | .BLACK => b &&& (255 ^^^ (1 <<< k))
  | .INVERSE => b ^^^ (1 <<< k)

/-- The write step of drawPixel after the bounds check: applies the
rotation coordinate transform (WIDTH/HEIGHT are the unrotated panel
dimensions), then updates bit (y and 7) of framebuffer byte
bufferWidth * (y/8) + x.  The index is computed in int arithmetic and
narrowed to uint16_t; y/8 truncates toward zero and y and 7 equals the
non-negative remainder modulo 8 on two's-complement integers. -/
def drawPixelWrite (st : Driver) (buf : List Nat) (x y : Int) (color : Color) :
    List Nat :=
  let xy : Int × Int :=
    match st.rotation with
    | 1 => ((st.WIDTH : Int) - 1 - y, x)
    | 2 => ((st.WIDTH : Int) - 1 - x, (st.HEIGHT : Int) - 1 - y)
    | 3 => (y, (st.HEIGHT : Int) - 1 - x)
    | _ => (x, y)
  let tc : Nat := u16 ((st.bufferWidth : Int) * (Int.tdiv xy.2 8) + xy.1)
  buf.set tc (pixelByteUpdate color (xy.2 % 8).toNat (buf.getD tc 0))

/-- drawPixel: bounds-check x against bufferWidth and y against
bufferHeight for rotations 0 and 2, and against the swapped dimensions
otherwise; out-of-range calls return with the buffer untouched; in-range
calls apply the rotation transform and write one bit. -/
def drawPixel (st : Driver) (buf : List Nat) (x y : Int) (color : Color) :
    List Nat :=
  if st.rotation = 0 ∨ st.rotation = 2 then
    if x < 0 ∨ (st.bufferWidth : Int) ≤ x ∨ y < 0 ∨ (st.bufferHeight : Int) ≤ y then
      buf
    else
      drawPixelWrite st buf x y color
  else
    if x < 0 ∨ (st.bufferHeight : Int) ≤ x ∨ y < 0 ∨ (st.bufferWidth : Int) ≤ y then
      buf
    else
      drawPixelWrite st buf x y color

/-- The drawing loops of OLEDBitmap after all validation has passed:
row j, column i; at each byte boundary (i mod 8 = 0) the byte register is
reloaded from data at j * byteWidth + i/8, otherwise it is shifted left
(as uint8_t); the pixel gets the foreground color when the register's top
bit is set, else the background color; y advances with each row. -/
def OLEDBitmapDraw (st : Driver) (buf : List Nat) (x y : Int) (w h : Int)
    (data : List Nat) (color bgcolor : Color) : Nat × List Nat :=
  let byteWidth : Nat := (w.toNat + 7) / 8
  (List.range h.toNat).foldl
    (fun acc j =>
      (List.range w.toNat).foldl
        (fun acc2 i =>
          let byte : Nat :=
            if i % 8 ≠ 0 then (acc2.1 <<< 1) % 256
            else data.getD (j * byteWidth + i / 8) 0
          (byte,
           drawPixel st acc2.2 (x + (i : Int)) (y + (j : Int))
             (if byte &&& 0x80 ≠ 0 then color else bgcolor)))
        acc)
    (0, buf)

/-- OLEDBitmap: four validation checks in order (origin vs the logical
screen dimensions, bitmap dimensions vs the logical screen dimensions,
null data pointer, width divisibility by 8), each returning its own code
with the framebuffer untouched; on success WHITE is the foreground unless
invert, and the bitmap is drawn pixel by pixel via drawPixel. -/
def OLEDBitmap (st : Driver) (buf : List Nat) (x y w h : Int)
    (data : Option (List Nat)) (invert : Bool) :
    OLED_Return_Codes_e × List Nat :=
  if (logicalWidth st : Int) < x ∨ (logicalHeight st : Int) < y then
    (.OLED_BitmapScreenBounds, buf)
  else if (logicalWidth st : Int) < w ∨ (logicalHeight st : Int) < h then
    (.OLED_BitmapLargerThanScreen, buf)
  else if data = none then
    (.OLED_BitmapNullptr, buf)
  else if w % 8 ≠ 0 then
    (.OLED_BitmapHorizontalSize, buf)
  else
    let cb : Color × Color :=
      if invert = false then (.WHITE, .BLACK) else (.BLACK, .WHITE)
    (.OLED_Success, (OLEDBitmapDraw st buf x y w h (data.getD []) cb.1 cb.2).2)

/-- Body of the inner column loop of OLEDBufferScreen, with the number of
remaining iterations made explicit (the loop guard tx < w holds exactly
when w - tx iterations remain): skip columns whose absolute x-coordinate
is off the panel, send data byte at offset w * (ty/8) + tx for the
others, then advance tx. -/
def colLoopF (st : Driver) (x : Int) (w ty : Nat) (data : List Nat) :
    Nat → Nat → List BusEvent
  | 0, _ => []
  | n + 1, tx =>
    (if x + (tx : Int) < 0 ∨ (st.OLED_WIDTH : Int) ≤ x + (tx : Int) then []
     else [.data (data.getD (w * (ty / 8) + tx) 0)]) ++
      colLoopF st x w ty data n (tx + 1)

/-- Inner column loop of OLEDBufferScreen from column tx up to w. -/
def colLoop (st : Driver) (x : Int) (w ty : Nat) (data : List Nat)
    (tx : Nat) : List BusEvent :=
  colLoopF st x w ty data (w - tx) tx

/-- Body of the outer row loop of OLEDBufferScreen, with the number of
remaining iterations made explicit (ty steps by 8 while below h, so
ceil((h - ty)/8) iterations remain and the guard ty < h holds exactly when
that count is positive): rows whose absolute y-coordinate is off the
panel are skipped whole; the others run the column loop from tx = 0. -/
def rowLoopF (st : Driver) (x y : Int) (w : Nat) (data : List Nat) :
    Nat → Nat → List BusEvent
  | 0, _ => []
  | n + 1, ty =>
    (if y + (ty : Int) < 0 ∨ (st.OLED_HEIGHT : Int) ≤ y + (ty : Int) then []
     else colLoop st x w ty data 0) ++
      rowLoopF st x y w data n (ty + 8)

/-- Outer row loop of OLEDBufferScreen from page row ty within h. -/
def rowLoop (st : Driver) (x y : Int) (w h : Nat) (data : List Nat)
    (ty : Nat) : List BusEvent :=
  rowLoopF st x y w data ((h - ty + 7) / 8) ty

/-- OLEDBufferScreen: programs the column address window to 0..width-1
and the page address window starting at 0 with the end page from the
height switch (7 / 3 / 1 for heights 64 / 32 / 16, nothing otherwise),
then streams the selected region of data via the row/column loops. -/
def OLEDBufferScreen (st : Driver) (x y : Int) (w h : Nat)
    (data : List Nat) : List BusEvent :=
  [.command SSD1306_SET_COLUMN_ADDR, .command 0,
   .command (u8 ((st.OLED_WIDTH : Int) - 1)),
   .command SSD1306_SET_PAGE_ADDR, .command 0] ++
  (match st.OLED_HEIGHT with
   | 64 => [.command 7]
   | 32 => [.command 3]
   | 16 => [.command 1]
   | _ => []) ++
  rowLoop st x y w h data 0

/-- OLEDupdate: pushes the whole owned framebuffer through
OLEDBufferScreen at origin (0,0); the buffer dimensions are narrowed to
uint8_t on the way. -/
def OLEDupdate (st : Driver) : List BusEvent :=
  OLEDBufferScreen st 0 0 (st.bufferWidth % 256) (st.bufferHeight % 256)
    (st.OLEDbuffer.getD [])

/-- OLEDclearBuffer: memset of bufferWidth * (bufferHeight/8) zero bytes
over the owned framebuffer; nothing is written on the bus (empty trace). -/
def OLEDclearBuffer (st : Driver) : Driver × List BusEvent :=
  ({ st with
      OLEDbuffer :=
        some (List.replicate (st.bufferWidth * (st.bufferHeight / 8)) 0) },
   [])

/-- OLEDinit: the power-on command sequence, with a height-dependent
COM-pins / contrast branch; the multiplex-ratio argument is the int
value height - 1 narrowed to uint8_t. -/
def OLEDinit (st : Driver) : List BusEvent :=
  [.command SSD1306_DISPLAY_OFF,
   .command SSD1306_SET_DISPLAY_CLOCK_DIV_RATIO, .command 0x80,
   .command SSD1306_SET_MULTIPLEX_RATIO,
   .command (u8 ((st.OLED_HEIGHT : Int) - 1)),
   .command SSD1306_SET_DISPLAY_OFFSET, .command 0x00,
   .command SSD1306_SET_START_LINE,
   .command SSD1306_CHARGE_PUMP, .command 0x14,
   .command SSD1306_MEMORY_ADDR_MODE, .command 0x00,
   .command (SSD1306_SET_SEGMENT_REMAP ||| 0x01),
   .command SSD1306_COM_SCAN_DIR_DEC] ++
  (match st.OLED_HEIGHT with
   | 64 => [.command SSD1306_SET_COM_PINS, .command 0x12,
            .command SSD1306_SET_CONTRAST_CONTROL, .command 0xCF]
   | 32 => [.command SSD1306_SET_COM_PINS, .command 0x02,
            .command SSD1306_SET_CONTRAST_CONTROL, .command 0x8F]
   | 16 => [.command SSD1306_SET_COM_PINS, .command 0x02,
            .command SSD1306_SET_CONTRAST_CONTROL, .command 0xAF]
   | _ => []) ++
  [.command SSD1306_SET_PRECHARGE_PERIOD, .command 0xF1,
   .command SSD1306_SET_VCOM_DESELECT, .command 0x40,
   .command SSD1306_DISPLAY_ALL_ON_RESUME,
   .command SSD1306_NORMAL_DISPLAY,
   .command SSD1306_DEACTIVATE_SCROLL,
   .command SSD1306_DISPLAY_ON]

/-- A read request issued to the I2C transport: device address and number
of bytes requested. -/
structure I2CReadRequest where
  addr : Nat
  count : Nat
deriving DecidableEq, Repr

/-- OLEDCheckConnection: issues a 1-byte read at the configured address
and returns the transport's int result (byte count, or a negative error
code) narrowed to the function's uint8_t return type.  The transport's
result is a parameter of the model. -/
def OLEDCheckConnection (st : Driver) (transportResult : Int) :
    I2CReadRequest × Nat :=
  ({ addr := st.address, count := 1 }, u8 transportResult)

/-! Claim-side definitions, written from the spec's words, to be compared
with the definitions above that embed the source. -/

/-- Claim-side pixel addressing (spec section 4.3): the rotation
transform in the spec's form — rotation 0 identity, rotation 1 maps
(x,y) to (W-1-y, x), rotation 2 to (W-1-x, H-1-y), rotation 3 to
(y, H-1-x) with W, H the unrotated panel dimensions — followed by the
byte index W * (y/8) + x and bit index y mod 8 of the transformed
coordinates. -/
def pixelAddr (w h r : Nat) (x y : Int) : Nat × Nat :=
  let p : Nat × Nat :=
    match r with
    | 1 => (w - 1 - y.toNat, x.toNat)
    | 2 => (w - 1 - x.toNat, h - 1 - y.toNat)
    | 3 => (y.toNat, h - 1 - x.toNat)
    | _ => (x.toNat, y.toNat)
  (w * (p.2 / 8) + p.1, p.2 % 8)

/-- Claim-side byte update: OR in the power of two for SET, AND with its
8-bit complement for CLEAR, XOR it for INVERT. -/
def specByte (c : Color) (b k : Nat) : Nat :=
  match c with
  | .WHITE => b ||| 2 ^ k
  | .BLACK => b &&& (255 - 2 ^ k)
  | .INVERSE => b ^^^ 2 ^ k

/-- Claim-side effect on the addressed bit: SET forces 1, CLEAR forces
0, INVERT flips the old value. -/
def specBit (c : Color) (old : Bool) : Bool :=
  match c with
  | .WHITE => true
  | .BLACK => false
  | .INVERSE => !old

/-- Claim-side drawPixel on in-bounds coordinates, continued: writes the
addressed bit of the addressed byte, leaving the rest of the buffer
alone. -/
def drawPixelSpec (w h r : Nat) (buf : List Nat) (x y : Int) (c : Color) :
    List Nat :=
  let a := pixelAddr w h r x y
  buf.set a.1 (specByte c (buf.getD a.1 0) a.2)

/-- Claim-side description of the OLEDBufferScreen trace (spec section
4.4): the full-screen column window 0..width-1 and page window
0..pageCount-1, then, for each page row ty stepping by 8 within h whose
absolute y-coordinate is on the panel, and each column tx below w whose
absolute x-coordinate is on the panel, the data byte at offset
w * (ty/8) + tx, in left-to-right, top-page-to-bottom-page order; skipped
rows contribute no transfer. -/
def bufferScreenSpecTrace (st : Driver) (x y : Int) (w h : Nat)
    (data : List Nat) : List BusEvent :=
  [.command SSD1306_SET_COLUMN_ADDR, .command 0,
   .command (st.OLED_WIDTH - 1),
   .command SSD1306_SET_PAGE_ADDR, .command 0,
   .command (st.OLED_PAGE_NUM - 1)] ++
  ((List.range' 0 ((h + 7) / 8) 8).map (fun (ty : Nat) =>
      if 0 ≤ y + (ty : Int) ∧ y + (ty : Int) < (st.OLED_HEIGHT : Int) then
        ((List.range w).map (fun (tx : Nat) =>
          if 0 ≤ x + (tx : Int) ∧ x + (tx : Int) < (st.OLED_WIDTH : Int) then
            [BusEvent.data (data.getD (w * (ty / 8) + tx) 0)]
          else [])).flatten
      else [])).flatten

/-- Claim-side initialization sequence up to the height-dependent branch
(spec section 4.2): display-off, clock-divide ratio 0x80, multiplex ratio
with the given argument, display offset 0, start line 0, charge pump
0x14, horizontal addressing mode 0x00, segment remap on, COM scan
direction decremented. -/
def initSeqHead (mux : Nat) : List BusEvent :=
  [.command SSD1306_DISPLAY_OFF,
   .command SSD1306_SET_DISPLAY_CLOCK_DIV_RATIO, .command 0x80,
   .command SSD1306_SET_MULTIPLEX_RATIO, .command mux,
   .command SSD1306_SET_DISPLAY_OFFSET, .command 0x00,
   .command SSD1306_SET_START_LINE,
   .command SSD1306_CHARGE_PUMP, .command 0x14,
   .command SSD1306_MEMORY_ADDR_MODE, .command 0x00,
   .command 0xA1,
   .command SSD1306_COM_SCAN_DIR_DEC]

/-- Claim-side initialization tail after the height-dependent branch:
pre-charge 0xF1, VCOM deselect 0x40, display-all-on-resume, normal
display, deactivate scroll, display-on. -/
def initSeqTail : List BusEvent :=
  [.command SSD1306_SET_PRECHARGE_PERIOD, .command 0xF1,
   .command SSD1306_SET_VCOM_DESELECT, .command 0x40,
   .command SSD1306_DISPLAY_ALL_ON_RESUME,
   .command SSD1306_NORMAL_DISPLAY,
   .command SSD1306_DEACTIVATE_SCROLL,
   .command SSD1306_DISPLAY_ON]

/-! Claim theorems. -/

/-- C1: OLEDSetBufferPtr succeeds exactly when the declared size equals
width * (height/8) and the buffer pointer is non-null; the two violations
are reported with the distinct numbered diagnostics 1 (wrong size) and 2
(null pointer), and the size check comes first (a wrong size is reported
as 1 even when the pointer is also null, which the second conjunct covers
since it does not assume a non-null pointer). -/
theorem OLEDSetBufferPtr_success_iff (st : Driver) (width height : Nat)
    (pBuffer : Option (List Nat)) (sizeOfBuffer : Nat)
    (_hw : width < 256) (_hh : height < 256) (_hs : sizeOfBuffer < 65536) :
    ((OLEDSetBufferPtr st width height pBuffer sizeOfBuffer).retval = true ↔
      sizeOfBuffer = width * (height / 8) ∧ pBuffer ≠ none) ∧
    (sizeOfBuffer ≠ width * (height / 8) →
      (OLEDSetBufferPtr st width height pBuffer sizeOfBuffer).errnum = some 1) ∧
    (sizeOfBuffer = width * (height / 8) → pBuffer = none →
      (OLEDSetBufferPtr st width height pBuffer sizeOfBuffer).errnum = some 2) ∧
    (1 : Nat) ≠ 2 := by
  refine ⟨?_, ?_, ?_, by decide⟩
  · by_cases hsz : sizeOfBuffer = width * (height / 8)
    · by_cases hp : pBuffer = none
      · simp [OLEDSetBufferPtr, hsz, hp]
      · simp [OLEDSetBufferPtr, hsz, hp]
    · simp [OLEDSetBufferPtr, hsz]
  · intro hsz
    simp [OLEDSetBufferPtr, hsz]
  · intro hsz hp
    simp [OLEDSetBufferPtr, hsz, hp]

/-- Witness for C1 at a 8x16 panel with an exactly sized buffer. -/
theorem OLEDSetBufferPtr_success_iff_witness :
    ((OLEDSetBufferPtr (construct 8 16 60) 8 16 (some (List.replicate 16 0))
        16).retval = true ↔
      16 = 8 * (16 / 8) ∧ some (List.replicate 16 0) ≠ none) ∧
    (16 ≠ 8 * (16 / 8) →
      (OLEDSetBufferPtr (construct 8 16 60) 8 16 (some (List.replicate 16 0))
        16).errnum = some 1) ∧
    (16 = 8 * (16 / 8) → some (List.replicate 16 0) = none →
      (OLEDSetBufferPtr (construct 8 16 60) 8 16 (some (List.replicate 16 0))
        16).errnum = some 2) ∧
    (1 : Nat) ≠ 2 :=
  OLEDSetBufferPtr_success_iff (construct 8 16 60) 8 16
    (some (List.replicate 16 0)) 16 (by decide) (by decide) (by decide)

/-- C10: when the declared size is right but the pointer is null, the
stored buffer handle has been overwritten with the null pointer by the
time the failure (diagnostic 2, return false) is reported, whatever
buffer was stored before. -/
theorem OLEDSetBufferPtr_null_overwrite (st : Driver)
    (width height sizeOfBuffer : Nat)
    (hsz : sizeOfBuffer = width * (height / 8)) :
    (OLEDSetBufferPtr st width height none sizeOfBuffer).state.OLEDbuffer =
      none ∧
    (OLEDSetBufferPtr st width height none sizeOfBuffer).retval = false ∧
    (OLEDSetBufferPtr st width height none sizeOfBuffer).errnum = some 2 := by
  simp [OLEDSetBufferPtr, hsz]

/-- Witness for C10: a driver holding a valid buffer loses it on the
failing null-pointer call. -/
theorem OLEDSetBufferPtr_null_overwrite_witness :
    (OLEDSetBufferPtr
        { construct 8 16 60 with OLEDbuffer := some (List.replicate 16 7) }
        8 16 none 16).state.OLEDbuffer = none ∧
    (OLEDSetBufferPtr
        { construct 8 16 60 with OLEDbuffer := some (List.replicate 16 7) }
        8 16 none 16).retval = false ∧
    (OLEDSetBufferPtr
        { construct 8 16 60 with OLEDbuffer := some (List.replicate 16 7) }
        8 16 none 16).errnum = some 2 :=
  OLEDSetBufferPtr_null_overwrite
    { construct 8 16 60 with OLEDbuffer := some (List.replicate 16 7) }
    8 16 16 (by decide)

/-- C9 counterexample: when the transport reports the error code -1, the
function does not return that value unchanged: its uint8_t return type
turns -1 into 255, which is neither 0 nor negative nor the reported
count. -/
theorem OLEDCheckConnection_counterexample :
    (OLEDCheckConnection (construct 128 64 60) (-1)).2 = 255 ∧
    ((255 : Int) ≠ -1 ∧ ¬(255 : Int) < 0 ∧ (255 : Int) ≠ 0) := by decide

/-- C9 amended: OLEDCheckConnection issues a 1-byte read at the
configured bus address and returns the transport's reported byte count
narrowed to an unsigned byte: 1 when the device is present and 0 when the
transport reports zero bytes, while negative transport error codes come
back as their unsigned-byte value instead of a negative value. -/
theorem OLEDCheckConnection_spec (st : Driver) (r : Int) :
    (OLEDCheckConnection st r).1 = { addr := st.address, count := 1 } ∧
    (OLEDCheckConnection st r).2 = u8 r ∧
    (r = 1 → (OLEDCheckConnection st r).2 = 1) ∧
    (r = 0 → (OLEDCheckConnection st r).2 = 0) := by
  refine ⟨rfl, rfl, ?_, ?_⟩ <;> rintro rfl <;> rfl

/-- Witness for C9 at a present device (transport count 1). -/
theorem OLEDCheckConnection_spec_witness :
    (OLEDCheckConnection (construct 128 64 60) 1).1 =
      { addr := (construct 128 64 60).address, count := 1 } ∧
    (OLEDCheckConnection (construct 128 64 60) 1).2 = u8 1 ∧
    ((1 : Int) = 1 → (OLEDCheckConnection (construct 128 64 60) 1).2 = 1) ∧
    ((1 : Int) = 0 → (OLEDCheckConnection (construct 128 64 60) 1).2 = 0) :=
  OLEDCheckConnection_spec (construct 128 64 60) 1

/-- C2 counterexample: with an 8x8 panel, origin (8,0) lies outside the
screen (valid columns are 0..7), yet OLEDBitmap returns success, not the
bounds error, because the code checks x > width rather than x >= width. -/
theorem OLEDBitmap_bounds_counterexample :
    (OLEDBitmap (construct 8 8 60) (List.replicate 8 0) 8 0 8 8
        (some (List.replicate 8 255)) false).1 = .OLED_Success ∧
    OLED_Return_Codes_e.OLED_Success ≠ .OLED_BitmapScreenBounds := by decide

/-- C2 amended: OLEDBitmap validates in order with a distinct code on
the first failure, where the origin check only fires for x strictly
greater than the logical width or y strictly greater than the logical
height (origins equal to the dimensions, or negative, are not rejected):
(a) bounds error, (b) larger-than-screen error when w or h strictly
exceeds the logical dimensions, (c) null-pointer error, (d)
width-alignment error when w is not divisible by 8; in every failure case
the framebuffer is returned untouched (zero pixel writes). -/
theorem OLEDBitmap_validation_order (st : Driver) (buf : List Nat)
    (x y w h : Int) (data : Option (List Nat)) (invert : Bool) :
    ((logicalWidth st : Int) < x ∨ (logicalHeight st : Int) < y →
      OLEDBitmap st buf x y w h data invert =
        (.OLED_BitmapScreenBounds, buf)) ∧
    (x ≤ (logicalWidth st : Int) → y ≤ (logicalHeight st : Int) →
      ((logicalWidth st : Int) < w ∨ (logicalHeight st : Int) < h) →
      OLEDBitmap st buf x y w h data invert =
        (.OLED_BitmapLargerThanScreen, buf)) ∧
    (x ≤ (logicalWidth st : Int) → y ≤ (logicalHeight st : Int) →
      w ≤ (logicalWidth st : Int) → h ≤ (logicalHeight st : Int) →
      data = none →
      OLEDBitmap st buf x y w h data invert = (.OLED_BitmapNullptr, buf)) ∧
    (x ≤ (logicalWidth st : Int) → y ≤ (logicalHeight st : Int) →
      w ≤ (logicalWidth st : Int) → h ≤ (logicalHeight st : Int) →
      data ≠ none → w % 8 ≠ 0 →
      OLEDBitmap st buf x y w h data invert =
        (.OLED_BitmapHorizontalSize, buf)) := by
  refine ⟨?_, ?_, ?_, ?_⟩
  · intro hcond
    simp only [OLEDBitmap]
    rw [if_pos hcond]
  · intro hx hy hwh
    simp only [OLEDBitmap]
    rw [if_neg (by omega), if_pos hwh]
  · intro hx hy hw hh hdata
    simp only [OLEDBitmap]
    rw [if_neg (by omega), if_neg (by omega), if_pos hdata]
  · intro hx hy hw hh hdata hmod
    simp only [OLEDBitmap]
    rw [if_neg (by omega), if_neg (by omega), if_neg hdata, if_pos hmod]

/-- Witness for C2 on an 8x8 panel: origin (9,0) is rejected with the
bounds error and an untouched buffer. -/
theorem OLEDBitmap_validation_order_witness :
    ((logicalWidth (construct 8 8 60) : Int) < 9 ∨
      (logicalHeight (construct 8 8 60) : Int) < 0) ∧
    OLEDBitmap (construct 8 8 60) (List.replicate 8 0) 9 0 8 8
        (some (List.replicate 8 255)) false =
      (.OLED_BitmapScreenBounds, List.replicate 8 0) :=
  ⟨by decide,
   (OLEDBitmap_validation_order (construct 8 8 60) (List.replicate 8 0)
      9 0 8 8 (some (List.replicate 8 255)) false).1 (by decide)⟩

/-- C5: for coordinates outside the rotated logical bounds — checked
against the swapped width/height for rotations 1 and 3 — drawPixel
returns with every byte of the framebuffer unchanged. -/
theorem drawPixel_out_of_bounds (w h addr r : Nat) (buf : List Nat)
    (x y : Int) (c : Color) (hr : r < 4)
    (hout : if r = 1 ∨ r = 3 then
        x < 0 ∨ (h : Int) ≤ x ∨ y < 0 ∨ (w : Int) ≤ y
      else x < 0 ∨ (w : Int) ≤ x ∨ y < 0 ∨ (h : Int) ≤ y) :
    drawPixel (setRotation (construct w h addr) r) buf x y c = buf := by
  interval_cases r
  · rw [if_neg (by norm_num)] at hout
    dsimp only [drawPixel, setRotation, construct]
    rw [if_pos (Or.inl rfl), if_pos hout]
  · rw [if_pos (Or.inl rfl)] at hout
    dsimp only [drawPixel, setRotation, construct]
    rw [if_neg (by norm_num), if_pos hout]
  · rw [if_neg (by norm_num)] at hout
    dsimp only [drawPixel, setRotation, construct]
    rw [if_pos (Or.inr rfl), if_pos hout]
  · rw [if_pos (Or.inr rfl)] at hout
    dsimp only [drawPixel, setRotation, construct]
    rw [if_neg (by norm_num), if_pos hout]

/-- Witness for C5: a pixel at y = 64 on a 128x64 panel at rotation 0 is
dropped and the buffer is unchanged. -/
theorem drawPixel_out_of_bounds_witness :
    drawPixel (setRotation (construct 128 64 60) 0) [5, 6, 7] 0 64
        .WHITE = [5, 6, 7] :=
  drawPixel_out_of_bounds 128 64 60 0 [5, 6, 7] 0 64 .WHITE (by decide)
    (by decide)

/-- C8: OLEDinit emits exactly the specified command sequence in order,
with the height-dependent COM-pins / contrast branch for heights 64, 32
and 16, and no COM-pins / contrast commands for any other height (the
sequence is then the common head followed directly by the common tail). -/
theorem OLEDinit_sequence (w h addr : Nat) :
    (h = 64 → OLEDinit (construct w h addr) =
      initSeqHead 63 ++
        [.command SSD1306_SET_COM_PINS, .command 0x12,
         .command SSD1306_SET_CONTRAST_CONTROL, .command 0xCF] ++
        initSeqTail) ∧
    (h = 32 → OLEDinit (construct w h addr) =
      initSeqHead 31 ++
        [.command SSD1306_SET_COM_PINS, .command 0x02,
         .command SSD1306_SET_CONTRAST_CONTROL, .command 0x8F] ++
        initSeqTail) ∧
    (h = 16 → OLEDinit (construct w h addr) =
      initSeqHead 15 ++
        [.command SSD1306_SET_COM_PINS, .command 0x02,
         .command SSD1306_SET_CONTRAST_CONTROL, .command 0xAF] ++
        initSeqTail) ∧
    (1 ≤ h → h ≤ 256 → h ≠ 16 → h ≠ 32 → h ≠ 64 →
      OLEDinit (construct w h addr) = initSeqHead (h - 1) ++ initSeqTail) := by
  refine ⟨?_, ?_, ?_, ?_⟩
  · rintro rfl; rfl
  · rintro rfl; rfl
  · rintro rfl; rfl
  · intro h1 h256 h16 h32 h64
    have hu : u8 ((h : Int) - 1) = h - 1 := by unfold u8; omega
    dsimp only [OLEDinit, construct, initSeqHead, initSeqTail]
    rw [hu]
    split
    · omega
    · omega
    · omega
    · rfl

/-! Helper lemmas for the drawPixel characterization. -/

theorem u16_ofNat (n : Nat) (h : n < 65536) : u16 (n : Int) = n := by
  unfold u16; omega

theorem tdiv_ofNat (n : Nat) : Int.tdiv (n : Int) 8 = ((n / 8 : Nat) : Int) :=
  rfl

theorem idx_lt (w h P1 P2 : Nat) (h8 : h % 8 = 0) (hP2 : P2 < h)
    (hP1 : P1 < w) : w * (P2 / 8) + P1 < w * (h / 8) := by
  have h1 : P2 / 8 + 1 ≤ h / 8 := by omega
  calc w * (P2 / 8) + P1 < w * (P2 / 8) + w := by omega
    _ = w * (P2 / 8 + 1) := by ring
    _ ≤ w * (h / 8) := Nat.mul_le_mul_left w h1

theorem xor255 : ∀ k, k < 8 → 255 ^^^ (2 : Nat) ^ k = 255 - 2 ^ k := by decide

theorem pixelByteUpdate_eq (c : Color) (k b : Nat) (hk : k < 8) :
    pixelByteUpdate c k b = specByte c b k := by
  have h1 : (1 <<< k) = 2 ^ k := by rw [Nat.shiftLeft_eq, one_mul]
  cases c <;> simp [pixelByteUpdate, specByte, h1, xor255 k hk]

theorem set_formula (w : Nat) (buf : List Nat) (c : Color) (X Y : Int)
    (P1 P2 : Nat) (hX : X = (P1 : Int)) (hY : Y = (P2 : Int))
    (hlt : w * (P2 / 8) + P1 < 65536) :
    buf.set (u16 ((w : Int) * Int.tdiv Y 8 + X))
        (pixelByteUpdate c (Y % 8).toNat
          (buf.getD (u16 ((w : Int) * Int.tdiv Y 8 + X)) 0)) =
      buf.set (w * (P2 / 8) + P1)
        (specByte c (buf.getD (w * (P2 / 8) + P1) 0) (P2 % 8)) := by
  subst hX hY
  have hcast : ((w : Int) * ((P2 / 8 : Nat) : Int) + ((P1 : Nat) : Int)) =
      ((w * (P2 / 8) + P1 : Nat) : Int) := by push_cast; ring
  have htc : u16 ((w : Int) * Int.tdiv (P2 : Int) 8 + (P1 : Int)) =
      w * (P2 / 8) + P1 := by
    rw [tdiv_ofNat, hcast, u16_ofNat _ hlt]
  have hk : (((P2 : Nat) : Int) % 8).toNat = P2 % 8 := by omega
  rw [htc, hk, pixelByteUpdate_eq _ _ _ (Nat.mod_lt _ (by norm_num))]

/-- drawPixel on in-bounds coordinates equals the claim-side form: the
bridge between the source embedding (int arithmetic, uint16_t index,
shift masks) and the spec formulas. -/
theorem drawPixel_in_bounds_eq (w h addr r : Nat) (buf : List Nat)
    (x y : Int) (c : Color) (h8 : h % 8 = 0) (hsize : w * (h / 8) ≤ 65536)
    (hr : r < 4)
    (hin : if r = 1 ∨ r = 3 then
        0 ≤ x ∧ x < (h : Int) ∧ 0 ≤ y ∧ y < (w : Int)
      else 0 ≤ x ∧ x < (w : Int) ∧ 0 ≤ y ∧ y < (h : Int)) :
    drawPixel (setRotation (construct w h addr) r) buf x y c =
      drawPixelSpec w h r buf x y c := by
  interval_cases r
  · rw [if_neg (by norm_num)] at hin
    obtain ⟨hx0, hxw, hy0, hyh⟩ := hin
    dsimp only [drawPixel, setRotation, construct, drawPixelWrite,
      drawPixelSpec, pixelAddr]
    rw [if_pos (Or.inl rfl), if_neg (by omega)]
    exact set_formula w buf c x y x.toNat y.toNat (by omega) (by omega)
      (lt_of_lt_of_le (idx_lt w h _ _ h8 (by omega) (by omega)) hsize)
  · rw [if_pos (Or.inl rfl)] at hin
    obtain ⟨hx0, hxh, hy0, hyw⟩ := hin
    dsimp only [drawPixel, setRotation, construct, drawPixelWrite,
      drawPixelSpec, pixelAddr]
    rw [if_neg (by norm_num), if_neg (by omega)]
    exact set_formula w buf c ((w : Int) - 1 - y) x (w - 1 - y.toNat) x.toNat
      (by omega) (by omega)
      (lt_of_lt_of_le (idx_lt w h _ _ h8 (by omega) (by omega)) hsize)
  · rw [if_neg (by norm_num)] at hin
    obtain ⟨hx0, hxw, hy0, hyh⟩ := hin
    dsimp only [drawPixel, setRotation, construct, drawPixelWrite,
      drawPixelSpec, pixelAddr]
    rw [if_pos (Or.inr rfl), if_neg (by omega)]
    exact set_formula w buf c ((w : Int) - 1 - x) ((h : Int) - 1 - y)
      (w - 1 - x.toNat) (h - 1 - y.toNat) (by omega) (by omega)
      (lt_of_lt_of_le (idx_lt w h _ _ h8 (by omega) (by omega)) hsize)
  · rw [if_pos (Or.inr rfl)] at hin
    obtain ⟨hx0, hxh, hy0, hyw⟩ := hin
    dsimp only [drawPixel, setRotation, construct, drawPixelWrite,
      drawPixelSpec, pixelAddr]
    rw [if_neg (by norm_num), if_neg (by omega)]
    exact set_formula w buf c y ((h : Int) - 1 - x) y.toNat (h - 1 - x.toNat)
      (by omega) (by omega)
      (lt_of_lt_of_le (idx_lt w h _ _ h8 (by omega) (by omega)) hsize)

/-- C3: for in-bounds coordinates under any rotation, drawPixel first
applies the claimed rotation transform and then updates bit y mod 8 of
framebuffer byte width * (y/8) + x of the transformed coordinates, OR
for SET/WHITE, AND-NOT for CLEAR/BLACK, XOR for INVERT/INVERSE — that
is, it equals the claim-side drawPixelSpec built from exactly those
formulas.  The size hypotheses state that the height is a whole number
of pages and the buffer size fits the uint16_t index, as for every
supported panel. -/
theorem drawPixel_rotation_transform (w h addr r : Nat) (buf : List Nat)
    (x y : Int) (c : Color) (h8 : h % 8 = 0) (hsize : w * (h / 8) ≤ 65536)
    (hr : r < 4)
    (hin : if r = 1 ∨ r = 3 then
        0 ≤ x ∧ x < (h : Int) ∧ 0 ≤ y ∧ y < (w : Int)
      else 0 ≤ x ∧ x < (w : Int) ∧ 0 ≤ y ∧ y < (h : Int)) :
    drawPixel (setRotation (construct w h addr) r) buf x y c =
      drawPixelSpec w h r buf x y c :=
  drawPixel_in_bounds_eq w h addr r buf x y c h8 hsize hr hin

/-- Witness for C3: rotation 1 on a 16x8 panel. -/
theorem drawPixel_rotation_transform_witness :
    drawPixel (setRotation (construct 16 8 60) 1) (List.replicate 16 2)
        3 5 .INVERSE =
      drawPixelSpec 16 8 1 (List.replicate 16 2) 3 5 .INVERSE :=
  drawPixel_rotation_transform 16 8 60 1 (List.replicate 16 2) 3 5 .INVERSE
    (by decide) (by decide) (by decide) (by decide)

/-! Helper lemmas for the single-bit-change analysis. -/

theorem getD_set_of_ne (l : List Nat) (i j v : Nat) (hij : i ≠ j) :
    (l.set i v).getD j 0 = l.getD j 0 := by
  rw [List.getD_eq_getElem?_getD, List.getD_eq_getElem?_getD,
    List.getElem?_set_ne hij]

theorem getD_set_self (l : List Nat) (i v : Nat) (hi : i < l.length) :
    (l.set i v).getD i 0 = v := by
  rw [List.getD_eq_getElem?_getD, List.getElem?_set_self hi]; rfl

theorem set_getD_self (l : List Nat) (i : Nat) :
    l.set i (l.getD i 0) = l := by
  induction l generalizing i with
  | nil => rfl
  | cons a t ih =>
    cases i with
    | zero => rfl
    | succ n =>
      show a :: t.set n (t.getD n 0) = a :: t
      rw [ih]

theorem set_oob (l : List Nat) (v : Nat) :
    ∀ i, l.length ≤ i → l.set i v = l := by
  induction l with
  | nil => intro i _; rfl
  | cons a t ih =>
    intro i hi
    cases i with
    | zero =>
      simp only [List.length_cons] at hi
      omega
    | succ n =>
      show a :: t.set n v = a :: t
      simp only [List.length_cons] at hi
      rw [ih n (by omega)]

theorem getD_lt_256 (l : List Nat) (i : Nat) (hb : ∀ b ∈ l, b < 256) :
    l.getD i 0 < 256 := by
  by_cases h : i < l.length
  · rw [List.getD_eq_getElem l 0 h]
    exact hb _ (List.getElem_mem h)
  · rw [List.getD_eq_getElem?_getD, List.getElem?_eq_none (by omega)]
    norm_num

theorem testBit_of_high (b j : Nat) (hb : b < 256) (hj : 8 ≤ j) :
    b.testBit j = false := by
  have h256 : (256 : Nat) ≤ 2 ^ j :=
    calc (256 : Nat) = 2 ^ 8 := by norm_num
      _ ≤ 2 ^ j := Nat.pow_le_pow_right (by norm_num) hj
  exact Nat.testBit_eq_false_of_lt (lt_of_lt_of_le hb h256)

theorem mask_testBit_self : ∀ k, k < 8 → (255 - 2 ^ k : Nat).testBit k = false :=
  by decide

theorem mask_testBit_low :
    ∀ k, k < 8 → ∀ j, j < 8 → j ≠ k → (255 - 2 ^ k : Nat).testBit j = true :=
  by decide

/-- The claim-side byte update leaves every bit other than the addressed
one alone. -/
theorem newByte_testBit_ne (c : Color) (b k j : Nat) (hb : b < 256)
    (hk : k < 8) (hjk : j ≠ k) :
    (specByte c b k).testBit j = b.testBit j := by
  cases c
  · rw [specByte, Nat.testBit_lor, Nat.testBit_two_pow_of_ne (Ne.symm hjk),
      Bool.or_false]
  · rw [specByte, Nat.testBit_land]
    by_cases hj : j < 8
    · rw [mask_testBit_low k hk j hj hjk, Bool.and_true]
    · rw [testBit_of_high b j hb (by omega),
        Bool.false_and]
  · rw [specByte, Nat.testBit_xor, Nat.testBit_two_pow_of_ne (Ne.symm hjk),
      Bool.xor_false]

/-- The claim-side byte update forces the addressed bit to 1 for SET,
to 0 for CLEAR, and flips it for INVERT. -/
theorem newByte_testBit_eq (c : Color) (b k : Nat) (hk : k < 8) :
    (specByte c b k).testBit k = specBit c (b.testBit k) := by
  cases c
  · rw [specByte, specBit, Nat.testBit_lor, Nat.testBit_two_pow_self,
      Bool.or_true]
  · rw [specByte, specBit, Nat.testBit_land, mask_testBit_self k hk,
      Bool.and_false]
  · rw [specByte, specBit, Nat.testBit_xor, Nat.testBit_two_pow_self,
      Bool.xor_true]

/-- pixelAddr at rotation 0, reduced. -/
theorem pixelAddr_zero (w h : Nat) (x y : Int) :
    pixelAddr w h 0 x y = (w * (y.toNat / 8) + x.toNat, y.toNat % 8) := rfl

/-- pixelAddr at rotation 1, reduced. -/
theorem pixelAddr_one (w h : Nat) (x y : Int) :
    pixelAddr w h 1 x y =
      (w * (x.toNat / 8) + (w - 1 - y.toNat), x.toNat % 8) := rfl

/-- pixelAddr at rotation 2, reduced. -/
theorem pixelAddr_two (w h : Nat) (x y : Int) :
    pixelAddr w h 2 x y =
      (w * ((h - 1 - y.toNat) / 8) + (w - 1 - x.toNat),
       (h - 1 - y.toNat) % 8) := rfl

/-- pixelAddr at rotation 3, reduced. -/
theorem pixelAddr_three (w h : Nat) (x y : Int) :
    pixelAddr w h 3 x y =
      (w * ((h - 1 - x.toNat) / 8) + y.toNat, (h - 1 - x.toNat) % 8) := rfl

/-- The addressed byte index lies inside a buffer of the exact contract
size, for in-bounds coordinates. -/
theorem pixelAddr_fst_lt (w h r : Nat) (x y : Int) (h8 : h % 8 = 0)
    (hr : r < 4)
    (hin : if r = 1 ∨ r = 3 then
        0 ≤ x ∧ x < (h : Int) ∧ 0 ≤ y ∧ y < (w : Int)
      else 0 ≤ x ∧ x < (w : Int) ∧ 0 ≤ y ∧ y < (h : Int)) :
    (pixelAddr w h r x y).1 < w * (h / 8) := by
  interval_cases r
  · rw [if_neg (by norm_num)] at hin
    rw [pixelAddr_zero]
    exact idx_lt w h _ _ h8 (by omega) (by omega)
  · rw [if_pos (Or.inl rfl)] at hin
    rw [pixelAddr_one]
    exact idx_lt w h _ _ h8 (by omega) (by omega)
  · rw [if_neg (by norm_num)] at hin
    rw [pixelAddr_two]
    exact idx_lt w h _ _ h8 (by omega) (by omega)
  · rw [if_pos (Or.inr rfl)] at hin
    rw [pixelAddr_three]
    exact idx_lt w h _ _ h8 (by omega) (by omega)

/-- C4 counterexample: drawPixel does not always change exactly one bit:
setting the already-set pixel (0,0) on an 8x8 panel leaves the buffer
identical (zero bits change). -/
theorem drawPixel_one_bit_counterexample :
    drawPixel (construct 8 8 60) [1, 0, 0, 0, 0, 0, 0, 0] 0 0 .WHITE =
      [1, 0, 0, 0, 0, 0, 0, 0] := by decide

/-- C4 amended: for in-bounds coordinates and a buffer of the contract
size with byte values, drawPixel changes at most one bit, located at the
computed byte/bit index: every other byte is unchanged, every other bit
of the addressed byte is unchanged, and the addressed bit becomes 1 for
SET, 0 for CLEAR and is flipped for INVERT (so INVERT changes exactly
one bit); INVERT applied twice restores the original buffer; and
drawPixel(0,0,SET) then drawPixel(0,0,CLEAR) starting from a zeroed
buffer leaves byte 0 equal to 0x00. -/
theorem drawPixel_bit_change (w h addr r : Nat) (buf : List Nat)
    (x y : Int) (c : Color) (h8 : h % 8 = 0) (hsize : w * (h / 8) ≤ 65536)
    (hr : r < 4)
    (hin : if r = 1 ∨ r = 3 then
        0 ≤ x ∧ x < (h : Int) ∧ 0 ≤ y ∧ y < (w : Int)
      else 0 ≤ x ∧ x < (w : Int) ∧ 0 ≤ y ∧ y < (h : Int))
    (hlen : buf.length = w * (h / 8)) (hbytes : ∀ b ∈ buf, b < 256) :
    (∀ i, i ≠ (pixelAddr w h r x y).1 →
      (drawPixel (setRotation (construct w h addr) r) buf x y c).getD i 0 =
        buf.getD i 0) ∧
    (∀ j, j ≠ (pixelAddr w h r x y).2 →
      ((drawPixel (setRotation (construct w h addr) r) buf x y c).getD
          (pixelAddr w h r x y).1 0).testBit j =
        (buf.getD (pixelAddr w h r x y).1 0).testBit j) ∧
    ((drawPixel (setRotation (construct w h addr) r) buf x y c).getD
        (pixelAddr w h r x y).1 0).testBit (pixelAddr w h r x y).2 =
      specBit c
        ((buf.getD (pixelAddr w h r x y).1 0).testBit
          (pixelAddr w h r x y).2) ∧
    drawPixel (setRotation (construct w h addr) r)
        (drawPixel (setRotation (construct w h addr) r) buf x y .INVERSE)
        x y .INVERSE = buf ∧
    (drawPixel (construct 8 8 60)
        (drawPixel (construct 8 8 60) (List.replicate 8 0) 0 0 .WHITE)
        0 0 .BLACK).getD 0 0 = 0 := by
  have htc : (pixelAddr w h r x y).1 < buf.length := by
    rw [hlen]; exact pixelAddr_fst_lt w h r x y h8 hr hin
  have hk : (pixelAddr w h r x y).2 < 8 := by
    interval_cases r
    · rw [pixelAddr_zero]; exact Nat.mod_lt _ (by norm_num)
    · rw [pixelAddr_one]; exact Nat.mod_lt _ (by norm_num)
    · rw [pixelAddr_two]; exact Nat.mod_lt _ (by norm_num)
    · rw [pixelAddr_three]; exact Nat.mod_lt _ (by norm_num)
  have hb : buf.getD (pixelAddr w h r x y).1 0 < 256 :=
    getD_lt_256 buf _ hbytes
  have heq := drawPixel_in_bounds_eq w h addr r buf x y c h8 hsize hr hin
  have hspec : drawPixelSpec w h r buf x y c =
      buf.set (pixelAddr w h r x y).1
        (specByte c (buf.getD (pixelAddr w h r x y).1 0)
          (pixelAddr w h r x y).2) := rfl
  refine ⟨?_, ?_, ?_, ?_, by decide⟩
  · intro i hi
    rw [heq, hspec, getD_set_of_ne _ _ _ _ (Ne.symm hi)]
  · intro j hj
    rw [heq, hspec, getD_set_self _ _ _ htc]
    exact newByte_testBit_ne c _ _ j hb hk hj
  · rw [heq, hspec, getD_set_self _ _ _ htc]
    exact newByte_testBit_eq c _ _ hk
  · have heq1 := drawPixel_in_bounds_eq w h addr r buf x y .INVERSE h8 hsize
      hr hin
    have heq2 := drawPixel_in_bounds_eq w h addr r
      (drawPixelSpec w h r buf x y .INVERSE) x y .INVERSE h8 hsize hr hin
    rw [heq1, heq2]
    show (drawPixelSpec w h r buf x y .INVERSE).set (pixelAddr w h r x y).1
        (specByte .INVERSE
          ((drawPixelSpec w h r buf x y .INVERSE).getD
            (pixelAddr w h r x y).1 0)
          (pixelAddr w h r x y).2) = buf
    have h1 : drawPixelSpec w h r buf x y .INVERSE =
        buf.set (pixelAddr w h r x y).1
          (buf.getD (pixelAddr w h r x y).1 0 ^^^
            2 ^ (pixelAddr w h r x y).2) := rfl
    rw [h1, getD_set_self _ _ _ htc]
    show (buf.set (pixelAddr w h r x y).1
        (buf.getD (pixelAddr w h r x y).1 0 ^^^
          2 ^ (pixelAddr w h r x y).2)).set (pixelAddr w h r x y).1
        ((buf.getD (pixelAddr w h r x y).1 0 ^^^
            2 ^ (pixelAddr w h r x y).2) ^^^
          2 ^ (pixelAddr w h r x y).2) = buf
    rw [List.set_set, Nat.xor_assoc, Nat.xor_self, Nat.xor_zero,
      set_getD_self]

/-- Witness for C4 at rotation 0 on a 16x8 panel with a zeroed buffer:
the instantiated consequences at concrete byte/bit indices. -/
theorem drawPixel_bit_change_witness :
    ((drawPixel (setRotation (construct 16 8 60) 0) (List.replicate 16 0)
        2 3 .INVERSE).getD 0 0 = (List.replicate 16 0).getD 0 0) ∧
    (((drawPixel (setRotation (construct 16 8 60) 0) (List.replicate 16 0)
          2 3 .INVERSE).getD (pixelAddr 16 8 0 2 3).1 0).testBit 0 =
      (((List.replicate 16 0).getD (pixelAddr 16 8 0 2 3).1 0).testBit 0)) ∧
    (((drawPixel (setRotation (construct 16 8 60) 0) (List.replicate 16 0)
          2 3 .INVERSE).getD (pixelAddr 16 8 0 2 3).1 0).testBit
        (pixelAddr 16 8 0 2 3).2 =
      !(((List.replicate 16 0).getD (pixelAddr 16 8 0 2 3).1 0).testBit
          (pixelAddr 16 8 0 2 3).2)) ∧
    drawPixel (setRotation (construct 16 8 60) 0)
        (drawPixel (setRotation (construct 16 8 60) 0)
          (List.replicate 16 0) 2 3 .INVERSE) 2 3 .INVERSE =
      List.replicate 16 0 :=
  ⟨(drawPixel_bit_change 16 8 60 0 (List.replicate 16 0) 2 3 .INVERSE
      (by decide) (by decide) (by decide) (by decide) (by decide)
      (by decide)).1 0 (by decide),
   (drawPixel_bit_change 16 8 60 0 (List.replicate 16 0) 2 3 .INVERSE
      (by decide) (by decide) (by decide) (by decide) (by decide)
      (by decide)).2.1 0 (by decide),
   (drawPixel_bit_change 16 8 60 0 (List.replicate 16 0) 2 3 .INVERSE
      (by decide) (by decide) (by decide) (by decide) (by decide)
      (by decide)).2.2.1,
   (drawPixel_bit_change 16 8 60 0 (List.replicate 16 0) 2 3 .INVERSE
      (by decide) (by decide) (by decide) (by decide) (by decide)
      (by decide)).2.2.2.1⟩

/-- Witness for C8 at height 64. -/
theorem OLEDinit_sequence_witness :
    OLEDinit (construct 128 64 60) =
      initSeqHead 63 ++
        [.command SSD1306_SET_COM_PINS, .command 0x12,
         .command SSD1306_SET_CONTRAST_CONTROL, .command 0xCF] ++
        initSeqTail :=
  (OLEDinit_sequence 128 64 60).1 rfl

/-! Helper lemmas for the screen transfer engine. -/

/-- Closed form of the column loop: the events of the columns tx, tx+1,
..., tx+n-1, one data byte for each column on the panel. -/
theorem colLoopF_eq (st : Driver) (x : Int) (w ty : Nat) (data : List Nat) :
    ∀ n tx, colLoopF st x w ty data n tx =
      ((List.range' tx n).map (fun (txx : Nat) =>
        if 0 ≤ x + (txx : Int) ∧ x + (txx : Int) < (st.OLED_WIDTH : Int) then
          [BusEvent.data (data.getD (w * (ty / 8) + txx) 0)]
        else [])).flatten := by
  intro n
  induction n with
  | zero => intro tx; rfl
  | succ n ih =>
    intro tx
    rw [List.range'_succ, List.map_cons, List.flatten_cons, colLoopF]
    congr 1
    · by_cases hcond : x + (tx : Int) < 0 ∨ (st.OLED_WIDTH : Int) ≤ x + (tx : Int)
      · rw [if_pos hcond, if_neg (by
          intro hc
          rcases hcond with hc1 | hc1 <;> omega)]
      · rw [if_neg hcond, if_pos (by
          constructor <;> omega)]
    · exact ih (tx + 1)

/-- Closed form of the row loop: the events of the page rows ty, ty+8,
..., each on-panel row contributing its column events, off-panel rows
nothing. -/
theorem rowLoopF_eq (st : Driver) (x y : Int) (w : Nat) (data : List Nat) :
    ∀ n ty, rowLoopF st x y w data n ty =
      ((List.range' ty n 8).map (fun (tyy : Nat) =>
        if 0 ≤ y + (tyy : Int) ∧ y + (tyy : Int) < (st.OLED_HEIGHT : Int) then
          ((List.range w).map (fun (txx : Nat) =>
            if 0 ≤ x + (txx : Int) ∧
                x + (txx : Int) < (st.OLED_WIDTH : Int) then
              [BusEvent.data (data.getD (w * (tyy / 8) + txx) 0)]
            else [])).flatten
        else [])).flatten := by
  intro n
  induction n with
  | zero => intro ty; rfl
  | succ n ih =>
    intro ty
    rw [List.range'_succ, List.map_cons, List.flatten_cons, rowLoopF]
    congr 1
    · by_cases hcond : y + (ty : Int) < 0 ∨ (st.OLED_HEIGHT : Int) ≤ y + (ty : Int)
      · rw [if_pos hcond, if_neg (by
          intro hc
          rcases hcond with hc1 | hc1 <;> omega)]
      · rw [if_neg hcond, if_pos (by constructor <;> omega)]
        rw [colLoop, Nat.sub_zero, colLoopF_eq, List.range_eq_range']
    · exact ih (ty + 8)

/-- C6: OLEDBufferScreen on a panel of height 16, 32 or 64 first
programs the full-screen column window 0..width-1 and page window
0..pageCount-1 whatever the requested sub-rectangle, then streams, in
left-to-right, top-page-to-bottom-page order, exactly the byte at offset
w * (ty/8) + tx for each page row whose absolute y-coordinate is on the
panel and each column whose absolute x-coordinate is on the panel;
skipped rows contribute nothing.  The width bounds keep the uint8_t
narrowing of width-1 exact, and the bounds on w and h state the uint8_t
domain of the parameters within which the row counter cannot wrap. -/
theorem OLEDBufferScreen_trace (w0 h0 addr : Nat) (x y : Int) (w h : Nat)
    (data : List Nat) (hh0 : h0 = 16 ∨ h0 = 32 ∨ h0 = 64)
    (hw0 : 1 ≤ w0) (hw0' : w0 ≤ 256) (_hw : w ≤ 255) (_hh : h ≤ 248) :
    OLEDBufferScreen (construct w0 h0 addr) x y w h data =
      bufferScreenSpecTrace (construct w0 h0 addr) x y w h data := by
  have hu : u8 ((w0 : Int) - 1) = w0 - 1 := by unfold u8; omega
  have hrow : rowLoop (construct w0 h0 addr) x y w h data 0 =
      rowLoopF (construct w0 h0 addr) x y w data ((h + 7) / 8) 0 := by
    rw [rowLoop, Nat.sub_zero]
  rcases hh0 with rfl | rfl | rfl <;>
    · unfold OLEDBufferScreen bufferScreenSpecTrace
      rw [hrow, rowLoopF_eq]
      dsimp only [construct]
      rw [hu]
      rfl

/-- Witness for C6: a 4-wide, 16-tall region pushed to a 128x64 panel
from origin (126, -8): the right-hand columns and the first page row are
clipped. -/
theorem OLEDBufferScreen_trace_witness :
    OLEDBufferScreen (construct 128 64 60) 126 (-8) 4 16
        [1, 2, 3, 4, 5, 6, 7, 8] =
      bufferScreenSpecTrace (construct 128 64 60) 126 (-8) 4 16
        [1, 2, 3, 4, 5, 6, 7, 8] :=
  OLEDBufferScreen_trace 128 64 60 126 (-8) 4 16 [1, 2, 3, 4, 5, 6, 7, 8]
    (Or.inr (Or.inr rfl)) (by decide) (by decide) (by decide) (by decide)

/-- Every byte of the zeroed framebuffer reads back as zero. -/
theorem getD_replicate_zero (n : Nat) : ∀ i, (List.replicate n (0 : Nat)).getD i 0 = 0 := by
  induction n with
  | zero => intro i; rfl
  | succ n ih =>
    intro i
    cases i with
    | zero => rfl
    | succ j => exact ih j

/-- All data events of the column loop over a zeroed buffer carry byte
0. -/
theorem colLoopF_data_zero (st : Driver) (x : Int) (w ty nrep : Nat) :
    ∀ n tx b,
      BusEvent.data b ∈
        colLoopF st x w ty (List.replicate nrep 0) n tx → b = 0 := by
  intro n
  induction n with
  | zero =>
    intro tx b hb
    simp only [colLoopF] at hb
    cases hb
  | succ n ih =>
    intro tx b hb
    rw [colLoopF, List.mem_append] at hb
    rcases hb with hb | hb
    · by_cases hcond : x + (tx : Int) < 0 ∨ (st.OLED_WIDTH : Int) ≤ x + (tx : Int)
      · rw [if_pos hcond] at hb
        cases hb
      · rw [if_neg hcond, List.mem_singleton,
          getD_replicate_zero nrep] at hb
        exact BusEvent.data.inj hb
    · exact ih (tx + 1) b hb

/-- All data events of the row loop over a zeroed buffer carry byte 0. -/
theorem rowLoopF_data_zero (st : Driver) (x y : Int) (w nrep : Nat) :
    ∀ n ty b,
      BusEvent.data b ∈
        rowLoopF st x y w (List.replicate nrep 0) n ty → b = 0 := by
  intro n
  induction n with
  | zero =>
    intro ty b hb
    simp only [rowLoopF] at hb
    cases hb
  | succ n ih =>
    intro ty b hb
    rw [rowLoopF, List.mem_append] at hb
    rcases hb with hb | hb
    · by_cases hcond : y + (ty : Int) < 0 ∨ (st.OLED_HEIGHT : Int) ≤ y + (ty : Int)
      · rw [if_pos hcond] at hb
        cases hb
      · rw [if_neg hcond, colLoop] at hb
        exact colLoopF_data_zero st x w ty nrep _ 0 b hb
    · exact ih (ty + 8) b hb

/-- C7: OLEDclearBuffer writes nothing on the bus and replaces the owned
framebuffer contents with width * (height/8) zero bytes; a following
OLEDupdate then emits only zero data bytes. -/
theorem OLEDclearBuffer_update_zero (st : Driver) :
    (OLEDclearBuffer st).2 = [] ∧
    (OLEDclearBuffer st).1.OLEDbuffer =
      some (List.replicate (st.bufferWidth * (st.bufferHeight / 8)) 0) ∧
    ∀ b, BusEvent.data b ∈ OLEDupdate (OLEDclearBuffer st).1 → b = 0 := by
  refine ⟨rfl, rfl, ?_⟩
  intro b hb
  dsimp only [OLEDupdate, OLEDBufferScreen, OLEDclearBuffer,
    Option.getD] at hb
  rw [List.mem_append, List.mem_append] at hb
  rcases hb with (hb | hb) | hb
  · simp at hb
  · split at hb <;> simp at hb
  · rw [rowLoop, Nat.sub_zero] at hb
    exact rowLoopF_data_zero _ 0 0 _ _ _ 0 b hb

/-- Witness for C7: the update after a clear on an 8x16 panel does emit
a data byte, and that byte is 0. -/
theorem OLEDclearBuffer_update_zero_witness :
    BusEvent.data 0 ∈ OLEDupdate (OLEDclearBuffer (construct 8 16 60)).1 ∧
    (0 : Nat) = 0 :=
  ⟨by decide,
   (OLEDclearBuffer_update_zero (construct 8 16 60)).2.2 0 (by decide)⟩

end SSD1306Oled
